import Mathlib

/-!
Verification development for the dark-heresy-sandbox backend.

The operational code lives in `backend/app/main.py` (FastAPI handlers over a
SQLAlchemy session) and `backend/app/ollama_client.py`.  We embed the database
as an explicit `Store` value: each table is a list in insertion order, row
identities come from a single fresh counter (`nextId`), and the session/commit
discipline is made explicit — a handler returns the *visible* store (the state
after its commits) together with an `Except` outcome.  A handler that raises
before any commit leaves the store unchanged, which models SQLAlchemy's
rollback of an uncommitted session.

Python idioms are embedded explicitly:
  * `x or d` on optional strings is `pyOrStr` (both `None` and `""` fall back);
  * `x or None` is `pyOrNone`;
  * `str.strip` / `str.find` are `pyStrip` / `findIdx?` over `List Char`.

The shipped `models.py` declares a `CampaignState` table (one row per campaign,
holding the current-scene pointer) and a `SceneChoice` table, but no handler in
`main.py` reads or writes either; the `Store` carries both tables so that this
absence is expressible.
-/

namespace DH

/-- Python `x or default` on an optional string: `None` and `""` are falsy. -/
def pyOrStr (o : Option String) (d : String) : String :=
  match o with
  | some s => if s = "" then d else s
  | none => d

/-- Python `x or None` on an optional string: `""` collapses to `None`. -/
def pyOrNone (o : Option String) : Option String :=
  match o with
  | some s => if s = "" then none else some s
  | none => none

/-! ### Rows of the entity store (fields as constructed and read by `main.py`) -/

structure Campaign where
  id : Nat
  name : String
  description : String
deriving DecidableEq, Repr

structure Location where
  id : Nat
  campaign_id : Nat
  name : String
  description : String
deriving DecidableEq, Repr

/-- NPC row.  `main.py` creates NPCs without a status and later assigns
`status = "dead"`; the column default is the spec's initial "alive". -/
structure NPC where
  id : Nat
  campaign_id : Nat
  name : String
  role : Option String
  faction : Option String
  description : String
  status : String
deriving DecidableEq, Repr

structure Scene where
  id : Nat
  campaign_id : Nat
  location_id : Option Nat
  name : String
  description : String
  scene_type : String
  status : String
deriving DecidableEq, Repr

structure Encounter where
  id : Nat
  scene_id : Nat
  layout_scheme : Option String
  npc_summary : Option String
  objective_victory : Option String
  objective_draw : Option String
  objective_defeat : Option String
  objective_retreat : Option String
  status : String
  outcome : Option String
deriving DecidableEq, Repr

/-- Navigation state row declared in `models.py` (table `campaign_state`). -/
structure CampaignStateRec where
  id : Nat
  campaign_id : Nat
  current_scene_id : Option Nat
deriving DecidableEq, Repr

/-- Choice row declared in `models.py` (table `scene_choices`). -/
structure SceneChoice where
  id : Nat
  scene_id : Nat
  label : String
  to_scene_id : Option Nat
deriving DecidableEq, Repr

structure LogEntry where
  id : Nat
  campaign_id : Nat
  scene_id : Option Nat
  entry_type : String
  text : String
  created_at : Nat
deriving DecidableEq, Repr

/-- The visible database.  Lists are in insertion (rowid) order; `now` is the
clock used for `created_at` defaults. -/
structure Store where
  campaigns : List Campaign
  locations : List Location
  npcs : List NPC
  scenes : List Scene
  encounters : List Encounter
  choices : List SceneChoice
  states : List CampaignStateRec
  logs : List LogEntry
  nextId : Nat
  now : Nat
deriving DecidableEq, Repr

def emptyStore : Store :=
  { campaigns := [], locations := [], npcs := [], scenes := [], encounters := []
    choices := [], states := [], logs := [], nextId := 1, now := 0 }

/-- Error outcomes of the HTTP handlers.  `serverCrash` stands for an uncaught
Python exception (HTTP 500) raised inside a handler; since the session was not
committed at that point, the store visible afterwards is whatever the last
commit left. -/
inductive ApiErr where
  | notFound
  | combatOnly
  | missingCampaign
  | ollamaFailed
  | serverCrash
deriving DecidableEq, Repr

/-! ### Encounter resolution (`main.py`, `resolve_encounter`, lines 173-221) -/

structure EncounterResolve where
  outcome : String
  defeated_npc_ids : Option (List Nat)
  gm_notes : Option String
deriving DecidableEq, Repr

def fallbackVictory : String := "Вы одержали победу. Решите, куда двигаться дальше."
def fallbackDraw : String := "Бой закончился ничьей. Ситуация остаётся напряжённой."
def fallbackDefeat : String := "Вы потерпели поражение. Подумайте, как вы сможете выбраться из этого."
def fallbackRetreat : String := "Вы отступили. Нужно найти обходной путь или перегруппироваться."

def gmNotesDelim : String := "\n\nЗаметки ведущего: "

/-- Embeds `resolve_encounter`: look up the encounter (404 if absent), follow
`enc.scene` and `scene.campaign` (a dangling foreign key would raise, leaving
no writes), set status/outcome, mark every NPC whose id is in the defeated
list dead (no campaign filter in the source), choose the consequence text with
per-outcome fallback, append the gm-notes addendum when notes are truthy, and
append one "encounter" log entry.  Single commit at the end. -/
def resolveEncounter (s : Store) (encId : Nat) (p : EncounterResolve) :
    Store × Except ApiErr String :=
  match s.encounters.find? (fun e => e.id = encId) with
  | none => (s, .error .notFound)
  | some enc =>
    match s.scenes.find? (fun sc => sc.id = enc.scene_id) with
    | none => (s, .error .serverCrash)
    | some scene =>
      match s.campaigns.find? (fun c => c.id = scene.campaign_id) with
      | none => (s, .error .serverCrash)
      | some campaign =>
        let encounters' := s.encounters.map fun e =>
          if e.id = encId then { e with status := "resolved", outcome := some p.outcome } else e
        let ids := p.defeated_npc_ids.getD []
        let npcs' :=
          if ids = [] then s.npcs
          else s.npcs.map fun n => if n.id ∈ ids then { n with status := "dead" } else n
        let base :=
          if p.outcome = "victory" then pyOrStr enc.objective_victory fallbackVictory
          else if p.outcome = "draw" then pyOrStr enc.objective_draw fallbackDraw
          else if p.outcome = "defeat" then pyOrStr enc.objective_defeat fallbackDefeat
          else pyOrStr enc.objective_retreat fallbackRetreat
        let text :=
          match p.gm_notes with
          | some g => if g = "" then base else base ++ gmNotesDelim ++ g
          | none => base
        let log : LogEntry :=
          { id := s.nextId, campaign_id := campaign.id, scene_id := some scene.id
            entry_type := "encounter", text := text, created_at := s.now }
        ({ s with encounters := encounters', npcs := npcs'
                  logs := s.logs ++ [log], nextId := s.nextId + 1 }, .ok text)

/-! ### Encounter creation (`main.py`, `create_encounter`, lines 139-160) -/

structure EncounterCreate where
  scene_id : Nat
  layout_scheme : Option String
  npc_summary : Option String
  objective_victory : Option String
  objective_draw : Option String
  objective_defeat : Option String
  objective_retreat : Option String
deriving DecidableEq, Repr

/-- Embeds `create_encounter`: 404 when the scene is unknown, 400 when the
scene is not a combat scene (before any write), otherwise insert the row. -/
def createEncounter (s : Store) (req : EncounterCreate) :
    Store × Except ApiErr Encounter :=
  match s.scenes.find? (fun sc => sc.id = req.scene_id) with
  | none => (s, .error .notFound)
  | some scene =>
    if scene.scene_type ≠ "combat" then (s, .error .combatOnly)
    else
      let enc : Encounter :=
        { id := s.nextId, scene_id := req.scene_id
          layout_scheme := req.layout_scheme, npc_summary := req.npc_summary
          objective_victory := req.objective_victory, objective_draw := req.objective_draw
          objective_defeat := req.objective_defeat, objective_retreat := req.objective_retreat
          status := "pending", outcome := none }
      ({ s with encounters := s.encounters ++ [enc], nextId := s.nextId + 1 }, .ok enc)

/-! ### Log listing (`main.py`, `list_logs`, lines 387-394)

The handler issues `ORDER BY created_at ASC` over the campaign's entries; the
underlying table scan is in rowid (insertion) order, so the query is modelled
as a stable sort by `created_at` of the insertion-ordered list. -/

def logLe (a b : LogEntry) : Prop := a.created_at ≤ b.created_at

instance : DecidableRel logLe := fun a b => Nat.decLe a.created_at b.created_at

instance : IsTotal LogEntry logLe := ⟨fun a b => Nat.le_total a.created_at b.created_at⟩

instance : IsTrans LogEntry logLe := ⟨fun _ _ _ h h' => Nat.le_trans h h'⟩

/-- Embeds `list_logs`: the handler runs
`SELECT ... WHERE campaign_id = :cid ORDER BY created_at ASC` and returns the
rows.  The query has no secondary sort key and the engine binding
(`database.py`) is not under `src`, so SQL fixes the result only up to the
order of equal-`created_at` rows: the faithful embedding is the predicate
holding of exactly the admissible results — the permutations of the
campaign's entries that are ascending in `created_at`. -/
def listLogsResult (s : Store) (campaignId : Nat) (out : List LogEntry) : Prop :=
  out.Perm (s.logs.filter fun e => e.campaign_id = campaignId) ∧ out.Pairwise logLe

/-! ### Auto-adventure builder (`main.py`, `autogenerate_adventure`, lines 399-577)

The handler first calls the generator; we embed the part after `generate_json`
succeeded, taking the decoded payload as structured input.  A JSON field that
is expected to be a list can be missing from the object (Python
`data.get(k, [])` yields `[]`), can be JSON `null` (`.get` then yields `None`
and the later `for` loop raises `TypeError`), or can be an actual list. -/

inductive JList (α : Type) where
  | missing
  | null
  | list (xs : List α)
deriving DecidableEq, Repr

/-- The list a non-`null` JSON field stands for (`data.get(k, [])`). -/
def jGetList : JList α → List α
  | .list xs => xs
  | _ => []

def JList.isNull : JList α → Bool
  | .null => true
  | _ => false

/-- Raw JSON value found under `location_index`: an integer or anything else. -/
inductive JIdx where
  | int (n : Int)
  | other
deriving DecidableEq, Repr

structure CampaignDesc where
  name : Option String
  description : Option String
deriving DecidableEq, Repr

structure LocationDesc where
  name : Option String
  description : Option String
deriving DecidableEq, Repr

structure EncDesc where
  layout_scheme : Option String
  npc_summary : Option String
  objective_victory : Option String
  objective_draw : Option String
  objective_defeat : Option String
  objective_retreat : Option String
deriving DecidableEq, Repr

structure SceneDesc where
  name : Option String
  description : Option String
  scene_type : Option String
  location_index : Option JIdx
  encounter : Option EncDesc
deriving DecidableEq, Repr

structure NPCDesc where
  name : Option String
  role : Option String
  faction : Option String
  description : Option String
deriving DecidableEq, Repr

structure AdventureData where
  campaign : Option CampaignDesc
  locations : JList LocationDesc
  scenes : JList SceneDesc
  npcs : JList NPCDesc
deriving DecidableEq, Repr

structure AutoAdventurePayload where
  num_players : Int
  exp_level : Int
deriving DecidableEq, Repr

/-- Embeds lines 510-513: take `location_index` (absent key defaults to `0`),
coerce non-integer or out-of-range values to `0`, then index the list of
created location ids; `None` only when no locations were created. -/
def resolveLocIdx (locMap : List Nat) (raw : Option JIdx) : Option Nat :=
  let idx : Nat :=
    match raw.getD (.int 0) with
    | .int n => if 0 ≤ n ∧ n < (locMap.length : Int) then n.toNat else 0
    | .other => 0
  match locMap with
  | [] => none
  | m0 :: _ => some (locMap.getD idx m0)

/-- Embeds line 515-517: `sc.get("scene_type") or "social"`, then membership
coercion into the allowed v1 scene types. -/
def coerceSceneType (o : Option String) : String :=
  let st := pyOrStr o "social"
  if st = "social" ∨ st = "investigation" ∨ st = "combat" then st else "social"

/-- Pass creating Location rows; returns the store and the `location_id_map`
from input position to persistent id (lines 496-505). -/
def buildLocations (cid : Nat) : Store → List LocationDesc → Store × List Nat
  | s, [] => (s, [])
  | s, d :: rest =>
    let loc : Location :=
      { id := s.nextId, campaign_id := cid
        name := pyOrStr d.name "Безымянная локация"
        description := d.description.getD "" }
    let r := buildLocations cid { s with locations := s.locations ++ [loc], nextId := s.nextId + 1 } rest
    (r.1, loc.id :: r.2)

/-- Pass creating Scene rows and their Encounters for combat scenes
(lines 509-543). -/
def buildScenes (cid : Nat) (locMap : List Nat) : Store → List SceneDesc → Store
  | s, [] => s
  | s, d :: rest =>
    let stype := coerceSceneType d.scene_type
    let scn : Scene :=
      { id := s.nextId, campaign_id := cid
        location_id := resolveLocIdx locMap d.location_index
        name := pyOrStr d.name "Безымянная сцена"
        description := d.description.getD ""
        scene_type := stype, status := "pending" }
    let s1 := { s with scenes := s.scenes ++ [scn], nextId := s.nextId + 1 }
    let s2 :=
      if stype = "combat" then
        let ed := d.encounter.getD { layout_scheme := none, npc_summary := none
                                     objective_victory := none, objective_draw := none
                                     objective_defeat := none, objective_retreat := none }
        let enc : Encounter :=
          { id := s1.nextId, scene_id := scn.id
            layout_scheme := some (ed.layout_scheme.getD "")
            npc_summary := some (ed.npc_summary.getD "")
            objective_victory := some (ed.objective_victory.getD "")
            objective_draw := some (ed.objective_draw.getD "")
            objective_defeat := some (ed.objective_defeat.getD "")
            objective_retreat := some (ed.objective_retreat.getD "")
            status := "pending", outcome := none }
        { s1 with encounters := s1.encounters ++ [enc], nextId := s1.nextId + 1 }
      else s1
    buildScenes cid locMap s2 rest

/-- Pass creating NPC rows (lines 545-553). -/
def buildNPCs (cid : Nat) : Store → List NPCDesc → Store
  | s, [] => s
  | s, d :: rest =>
    let npc : NPC :=
      { id := s.nextId, campaign_id := cid
        name := pyOrStr d.name "Безымянный NPC"
        role := pyOrNone d.role, faction := pyOrNone d.faction
        description := d.description.getD "", status := "alive" }
    buildNPCs cid { s with npcs := s.npcs ++ [npc], nextId := s.nextId + 1 } rest

/-- Embeds `autogenerate_adventure` after `generate_json` succeeded.

The handler commits twice: the Campaign row alone is committed at line 493
(`db.commit()` right after `db.add(campaign)`, needed for `db.refresh`), and
everything else — locations, scenes, encounters, NPCs and the system log
entry — is committed as one unit at line 568.  A `JList.null` list raises
`TypeError` at its `for` loop, which happens after the first commit, so the
visible store is then the campaign-only store `s1`. -/
def autogenerateAdventure (s : Store) (p : AutoAdventurePayload) (data : AdventureData) :
    Store × Except ApiErr Unit :=
  match data.campaign with
  | none => (s, .error .missingCampaign)
  | some cd =>
    let cname := pyOrStr cd.name "Безымянная кампания"
    let campaign : Campaign := { id := s.nextId, name := cname, description := cd.description.getD "" }
    let s1 := { s with campaigns := s.campaigns ++ [campaign], nextId := s.nextId + 1 }
    if data.locations.isNull then (s1, .error .serverCrash)
    else
      let locList := jGetList data.locations
      let r := buildLocations campaign.id s1 locList
      let s2 := r.1
      let locMap := r.2
      if data.scenes.isNull then (s1, .error .serverCrash)
      else
        let sceneList := jGetList data.scenes
        let s3 := buildScenes campaign.id locMap s2 sceneList
        if data.npcs.isNull then (s1, .error .serverCrash)
        else
          let npcList := jGetList data.npcs
          let s4 := buildNPCs campaign.id s3 npcList
          let logText :=
            "Автоматически сгенерирована кампания \x27" ++ cname ++ "\x27 для " ++
            toString p.num_players ++ " игроков (XP ~ " ++ toString p.exp_level ++
            ").\nСцен: " ++ toString sceneList.length ++ ", локаций: " ++
            toString locMap.length ++ ", NPC: " ++ toString npcList.length ++ "."
          let log : LogEntry :=
            { id := s4.nextId, campaign_id := campaign.id, scene_id := none
              entry_type := "system", text := logText, created_at := s4.now }
          ({ s4 with logs := s4.logs ++ [log], nextId := s4.nextId + 1 }, .ok ())

/-! ### Generated encounters (`main.py`, `generate_encounter_for_scene`, lines 226-341) -/

/-- Fields decoded from the generator's reply for one encounter. -/
structure EncGenData where
  layout_scheme : Option String
  npc_summary : Option String
  objective_victory : Option String
  objective_draw : Option String
  objective_defeat : Option String
  objective_retreat : Option String
deriving DecidableEq, Repr

/-- Embeds `generate_encounter_for_scene`: 404 for an unknown scene, 400 for a
non-combat scene (both before the generator call and before any write); the
generator outcome is passed in as `genResult` (`.error` models `OllamaError`,
surfaced as HTTP 500 with no writes).  On success the scene's existing
encounter is updated in place, or a new one inserted, plus one "system" log
entry; a single commit makes both visible. -/
def generateEncounterForScene (s : Store) (sceneId : Nat)
    (genResult : Except Unit EncGenData) : Store × Except ApiErr Unit :=
  match s.scenes.find? (fun sc => sc.id = sceneId) with
  | none => (s, .error .notFound)
  | some scene =>
    if scene.scene_type ≠ "combat" then (s, .error .combatOnly)
    else
      match s.campaigns.find? (fun c => c.id = scene.campaign_id) with
      | none => (s, .error .serverCrash)
      | some _ =>
        match genResult with
        | .error _ => (s, .error .ollamaFailed)
        | .ok data =>
          let layout := pyOrStr data.layout_scheme "Простая локация без подробного описания."
          let summary := pyOrStr data.npc_summary "Несколько врагов Императора."
          let ovic := pyOrStr data.objective_victory "Вы одержали победу и можете двигаться дальше."
          let odraw := pyOrStr data.objective_draw "Ничья. Ситуация остаётся напряжённой."
          let odef := pyOrStr data.objective_defeat "Поражение. Аколиты оказываются в тяжёлом положении."
          let oret := pyOrStr data.objective_retreat "Отступление. Нужно искать обходной путь или перегруппироваться."
          let hasEnc := (s.encounters.find? (fun e => e.scene_id = scene.id)).isSome
          let s1 :=
            if hasEnc then
              { s with encounters := s.encounters.map fun e =>
                  if e.scene_id = scene.id then
                    { e with layout_scheme := some layout, npc_summary := some summary
                             objective_victory := some ovic, objective_draw := some odraw
                             objective_defeat := some odef, objective_retreat := some oret }
                  else e }
            else
              let newEnc : Encounter :=
                { id := s.nextId, scene_id := scene.id
                  layout_scheme := some layout, npc_summary := some summary
                  objective_victory := some ovic, objective_draw := some odraw
                  objective_defeat := some odef, objective_retreat := some oret
                  status := "pending", outcome := none }
              { s with encounters := s.encounters ++ [newEnc], nextId := s.nextId + 1 }
          let logText :=
            "Сгенерировано боевое столкновение для сцены \x27" ++ scene.name ++
            "\x27\n\nПланировка:\n" ++ layout ++ "\n\nВраги:\n" ++ summary ++ "\n"
          let log : LogEntry :=
            { id := s1.nextId, campaign_id := scene.campaign_id, scene_id := some scene.id
              entry_type := "system", text := logText, created_at := s1.now }
          ({ s1 with logs := s1.logs ++ [log], nextId := s1.nextId + 1 }, .ok ())

/-! ### Navigator -/

inductive AdvErr where
  | stateNotInitialized
  | choiceNotFound
  | choiceNotAvailable
deriving DecidableEq, Repr

/-- Modelled from the spec: `AdvanceCampaign` (§4.2 Navigator, §6) has no
implementation under `src` — `models.py` declares its data (`CampaignState`,
`SceneChoice`) but no handler in `main.py` reads or writes them.  Following
the spec's words: fail with `StateNotInitializedError` when the campaign has
no `CampaignState`; fail with `ChoiceNotFoundError` when the choice is unknown
or belongs (via its origin scene) to a different campaign; fail with
`ChoiceNotAvailableError` when the choice's origin scene is not the current
scene; otherwise move the pointer to the target scene when the choice has one
(leave it unchanged for a dead end) and append one "choice" log entry
recording the choice's label. -/
def advanceCampaign (s : Store) (campaignId choiceId : Nat) :
    Store × Except AdvErr CampaignStateRec :=
  match s.states.find? (fun st => st.campaign_id = campaignId) with
  | none => (s, .error .stateNotInitialized)
  | some st =>
    match s.choices.find? (fun ch => ch.id = choiceId) with
    | none => (s, .error .choiceNotFound)
    | some ch =>
      match s.scenes.find? (fun sc => sc.id = ch.scene_id) with
      | none => (s, .error .choiceNotFound)
      | some origin =>
        if origin.campaign_id ≠ campaignId then (s, .error .choiceNotFound)
        else if st.current_scene_id ≠ some origin.id then (s, .error .choiceNotAvailable)
        else
          let st' :=
            match ch.to_scene_id with
            | some t => { st with current_scene_id := some t }
            | none => st
          let states' := s.states.map fun x => if x.campaign_id = campaignId then st' else x
          let log : LogEntry :=
            { id := s.nextId, campaign_id := campaignId, scene_id := some origin.id
              entry_type := "choice", text := ch.label, created_at := s.now }
          ({ s with states := states', logs := s.logs ++ [log], nextId := s.nextId + 1 },
           .ok st')

/-! ### Generated-JSON decoding (`ollama_client.py`, lines 19-46 and 108-121)

Strings are embedded as `List Char`; `json.loads` is an abstract decoder
parameter `decode : List Char → Option α` (partial results are values of an
arbitrary type), so the theorems hold for any decoder. -/

inductive OllamaErr where
  | emptyResponseField
  | emptyJsonString
  | noBraceFound
  | unableToRepair
deriving DecidableEq, Repr

/-- Python `str.strip()`. -/
def pyStrip (l : List Char) : List Char :=
  ((l.dropWhile Char.isWhitespace).reverse.dropWhile Char.isWhitespace).reverse

/-- The loop `for end in range(len(trimmed), 1, -1)` of lines 36-44: try
decoding ever-shorter take-prefixes of `trimmed`, stopping above length 1. -/
def tryChunks (decode : List Char → Option α) (trimmed : List Char) : Nat → Option α
  | 0 => none
  | 1 => none
  | n + 2 =>
    match decode (trimmed.take (n + 2)) with
    | some v => some v
    | none => tryChunks decode trimmed (n + 1)

/-- Embeds `_try_repair_json_prefix`: empty string and brace-free string raise
`OllamaError`; otherwise decode take-prefixes of the substring starting at the
first opening brace, longest first, down to length 2. -/
def tryRepairJson (decode : List Char → Option α) (raw : List Char) :
    Except OllamaErr α :=
  if raw = [] then .error .emptyJsonString
  else
    match raw.findIdx? (fun c => c = '\x7b') with
    | none => .error .noBraceFound
    | some start =>
      let trimmed := raw.drop start
      match tryChunks decode trimmed trimmed.length with
      | some v => .ok v
      | none => .error .unableToRepair

/-- Embeds lines 108-121 of `generate_json`, from the point where the
`response` field has been extracted: strip it, raise on an empty result, try
the whole string, and fall back to the repair routine. -/
def generateJsonFromResponse (decode : List Char → Option α)
    (response : Option (List Char)) : Except OllamaErr α :=
  let raw := pyStrip (response.getD [])
  if raw = [] then .error .emptyResponseField
  else
    match decode raw with
    | some v => .ok v
    | none => tryRepairJson decode raw

/-! ### Concrete stores and inputs used in counterexamples and witnesses -/

/-- Store with two campaigns: NPC 3 belongs to campaign 1, NPC 4 to
campaign 2; encounter 6 sits on combat scene 5 of campaign 1. -/
def twoCampaignStore : Store :=
  { campaigns := [⟨1, "A", ""⟩, ⟨2, "B", ""⟩]
    locations := []
    npcs := [⟨3, 1, "Культист", none, none, "", "alive"⟩,
             ⟨4, 2, "Торговец", none, none, "", "alive"⟩]
    scenes := [⟨5, 1, none, "Бой", "", "combat", "active"⟩]
    encounters := [⟨6, 5, some "", some "", some "Победа", some "", some "", some "", "pending", none⟩]
    choices := [], states := [], logs := [], nextId := 7, now := 0 }

/-- Store for the navigator witness: campaign 1, scenes 10 and 11, the state
currently at scene 10, and choice 20 leading from scene 10 to scene 11. -/
def navStore : Store :=
  { campaigns := [⟨1, "A", ""⟩]
    locations := [], npcs := []
    scenes := [⟨10, 1, none, "Начало", "", "social", "active"⟩,
               ⟨11, 1, none, "Финал", "", "social", "pending"⟩]
    encounters := []
    choices := [⟨20, 10, "Идти дальше", some 11⟩]
    states := [⟨30, 1, some 10⟩]
    logs := [], nextId := 31, now := 5 }

/-- Description whose `locations` field is JSON `null`: `data.get("locations",
[])` then yields `None` and the `for` loop over it raises `TypeError` — after
the Campaign row was already committed. -/
def nullLocationsData : AdventureData :=
  ⟨some ⟨some "Кампания К", none⟩, .null, .missing, .missing⟩

def somePayload : AutoAdventurePayload := ⟨4, 1000⟩

/-- Description with one location and one scene declaring location index 5,
far out of range of the single created location. -/
def badIndexData : AdventureData :=
  ⟨some ⟨some "Кампания К", none⟩, .list [⟨some "Доки", none⟩],
   .list [⟨some "Сцена", none, some "social", some (.int 5), none⟩], .missing⟩

/-- Store holding two campaign-1 log entries that were written in the order
id 1 then id 2 and share one `created_at` tick — the realistic tie case, two
entries written inside one request under the same `utcnow` value. -/
def tieStore : Store :=
  { emptyStore with
    logs := [⟨1, 1, none, "system", "первая", 7⟩,
             ⟨2, 1, none, "encounter", "вторая", 7⟩] }

/-- Invariant: every Encounter is attached to a Scene of kind "combat". -/
def EncScenesCombat (s : Store) : Prop :=
  ∀ e ∈ s.encounters, ∃ sc ∈ s.scenes, sc.id = e.scene_id ∧ sc.scene_type = "combat"

/-- Toy decoder standing in for `json.loads` in the C10 witness: accepts
exactly the two-character object "\x7b\x7d". -/
def toyDecode : List Char → Option Nat :=
  fun l => if l = ['\x7b', '\x7d'] then some 42 else none

/-- Raw model reply "xx\x7b\x7dyy" used by the C10 witness. -/
def toyResponse : List Char := ['x', 'x', '\x7b', '\x7d', 'y', 'y']

/-! ## Claims -/

/-- C9 counterexample: `tieStore` holds two campaign-1 entries written in the
order id 1 then id 2, sharing one `created_at` tick.  The reversed list is an
admissible result of the handler's query (it is a permutation of the
campaign's entries, ascending in `created_at`), yet it lists the
equal-timestamp entries against the write order — `ORDER BY created_at ASC`
alone does not entail the claimed tie-break by write order. -/
theorem c9_tie_order_counterexample :
    listLogsResult tieStore 1
      [⟨2, 1, none, "encounter", "вторая", 7⟩, ⟨1, 1, none, "system", "первая", 7⟩] ∧
    tieStore.logs.filter (fun e => e.campaign_id = 1)
      = [⟨1, 1, none, "system", "первая", 7⟩, ⟨2, 1, none, "encounter", "вторая", 7⟩] ∧
    ([⟨2, 1, none, "encounter", "вторая", 7⟩, ⟨1, 1, none, "system", "первая", 7⟩] :
        List LogEntry)
      ≠ [⟨1, 1, none, "system", "первая", 7⟩, ⟨2, 1, none, "encounter", "вторая", 7⟩] := by
  refine ⟨⟨?_, by decide⟩, rfl, by decide⟩
  have hf : tieStore.logs.filter (fun e => e.campaign_id = 1)
      = [⟨1, 1, none, "system", "первая", 7⟩, ⟨2, 1, none, "encounter", "вторая", 7⟩] := rfl
  rw [hf]
  exact List.Perm.swap _ _ _

/-- C9 amended: every admissible result of the log read holds exactly the
campaign's entries — same membership and same multiplicities — in ascending
`created_at` order, and an admissible result always exists; the relative
order of entries sharing a timestamp is not determined by the query. -/
theorem c9_amended_log_read (s : Store) (cid : Nat) :
    (∀ out, listLogsResult s cid out →
      (∀ e, e ∈ out ↔ e ∈ s.logs ∧ e.campaign_id = cid) ∧
      (∀ e, out.count e = (s.logs.filter fun x => x.campaign_id = cid).count e) ∧
      out.Pairwise (fun a b => a.created_at ≤ b.created_at)) ∧
    listLogsResult s cid
      (List.insertionSort logLe (s.logs.filter fun e => e.campaign_id = cid)) := by
  constructor
  · rintro out ⟨hperm, hsorted⟩
    refine ⟨?_, ?_, hsorted⟩
    · intro e
      rw [hperm.mem_iff, List.mem_filter]
      simp
    · intro e
      exact hperm.count_eq e
  · exact ⟨List.perm_insertionSort logLe _, List.sorted_insertionSort logLe _⟩

/-- C9 amended witness: instantiating the amended theorem at `tieStore` with
the sorted admissible result produced by a stable sort. -/
theorem c9_amended_witness :
    (∀ e, e ∈ List.insertionSort logLe (tieStore.logs.filter fun x => x.campaign_id = 1) ↔
        e ∈ tieStore.logs ∧ e.campaign_id = 1) ∧
    (∀ e, (List.insertionSort logLe (tieStore.logs.filter fun x => x.campaign_id = 1)).count e
        = (tieStore.logs.filter fun x => x.campaign_id = 1).count e) ∧
    (List.insertionSort logLe (tieStore.logs.filter fun x => x.campaign_id = 1)).Pairwise
        (fun a b => a.created_at ≤ b.created_at) :=
  (c9_amended_log_read tieStore 1).1 _
    ⟨List.perm_insertionSort logLe _, List.sorted_insertionSort logLe _⟩

/-- C2 counterexample: resolving encounter 6 (campaign 1) with defeated list
`[4]` sets NPC 4's status to "dead" although NPC 4 belongs to campaign 2 —
`resolve_encounter` filters only by `NPC.id`, never by campaign, so a
cross-campaign id in the list is not ignored, contradicting the claim. -/
theorem c2_cross_campaign_counterexample :
    (resolveEncounter twoCampaignStore 6 ⟨"victory", some [4], none⟩).snd.isOk = true ∧
    ((resolveEncounter twoCampaignStore 6 ⟨"victory", some [4], none⟩).fst.npcs.map
        fun n => (n.id, n.campaign_id, n.status))
      = [(3, 1, "alive"), (4, 2, "dead")] :=
  ⟨rfl, rfl⟩

/-- C2 amended: on every successful resolution, exactly the NPCs whose id is
in the defeated list — regardless of campaign — get status "dead"; all other
NPCs are unchanged. -/
theorem c2_amended_defeated_marking (s : Store) (encId : Nat) (p : EncounterResolve)
    (h : (resolveEncounter s encId p).snd.isOk = true) :
    (resolveEncounter s encId p).fst.npcs
      = s.npcs.map fun n =>
          if n.id ∈ p.defeated_npc_ids.getD [] then { n with status := "dead" } else n := by
  unfold resolveEncounter at h ⊢
  cases he : s.encounters.find? (fun e => e.id = encId) with
  | none => rw [he] at h; exact Bool.noConfusion h
  | some enc =>
    rw [he] at h
    dsimp only at h ⊢
    cases hs : s.scenes.find? (fun sc => sc.id = enc.scene_id) with
    | none => rw [hs] at h; exact Bool.noConfusion h
    | some scene =>
      rw [hs] at h
      dsimp only at h ⊢
      cases hc : s.campaigns.find? (fun c => c.id = scene.campaign_id) with
      | none => rw [hc] at h; exact Bool.noConfusion h
      | some campaign =>
        dsimp only
        by_cases hids : p.defeated_npc_ids.getD [] = []
        · simp [hids]
        · simp [hids]

/-- C2 amended witness: concrete successful resolution instantiating the
amended theorem. -/
theorem c2_amended_witness :
    (resolveEncounter twoCampaignStore 6 ⟨"victory", some [4], none⟩).fst.npcs
      = twoCampaignStore.npcs.map fun n =>
          if n.id ∈ (some [4] : Option (List Nat)).getD [] then { n with status := "dead" }
          else n :=
  c2_amended_defeated_marking twoCampaignStore 6 ⟨"victory", some [4], none⟩ rfl

/-- C6: for every existing encounter, the returned consequence text is the
outcome-indexed objective field when non-empty and the fixed per-outcome
fallback sentence when empty or null; supplied non-empty GM notes are appended
behind the fixed delimiter, and the appended "encounter" log entry carries the
same final text. -/
theorem c6_consequence_text (s : Store) (encId : Nat) (p : EncounterResolve)
    (enc : Encounter) (scene : Scene) (campaign : Campaign)
    (h1 : s.encounters.find? (fun e => e.id = encId) = some enc)
    (h2 : s.scenes.find? (fun sc => sc.id = enc.scene_id) = some scene)
    (h3 : s.campaigns.find? (fun c => c.id = scene.campaign_id) = some campaign) :
    ∃ base : String,
      (p.gm_notes = none → (resolveEncounter s encId p).snd = .ok base) ∧
      (p.gm_notes = some "" → (resolveEncounter s encId p).snd = .ok base) ∧
      (∀ g, p.gm_notes = some g → g ≠ "" →
        (resolveEncounter s encId p).snd = .ok (base ++ gmNotesDelim ++ g)) ∧
      (p.outcome = "victory" → ∀ v, enc.objective_victory = some v → v ≠ "" → base = v) ∧
      (p.outcome = "victory" → enc.objective_victory = none ∨ enc.objective_victory = some "" →
        base = fallbackVictory) ∧
      (p.outcome = "draw" → ∀ v, enc.objective_draw = some v → v ≠ "" → base = v) ∧
      (p.outcome = "draw" → enc.objective_draw = none ∨ enc.objective_draw = some "" →
        base = fallbackDraw) ∧
      (p.outcome = "defeat" → ∀ v, enc.objective_defeat = some v → v ≠ "" → base = v) ∧
      (p.outcome = "defeat" → enc.objective_defeat = none ∨ enc.objective_defeat = some "" →
        base = fallbackDefeat) ∧
      (p.outcome = "retreat" → ∀ v, enc.objective_retreat = some v → v ≠ "" → base = v) ∧
      (p.outcome = "retreat" → enc.objective_retreat = none ∨ enc.objective_retreat = some "" →
        base = fallbackRetreat) ∧
      (∀ t, (resolveEncounter s encId p).snd = .ok t →
        (resolveEncounter s encId p).fst.logs
          = s.logs ++ [{ id := s.nextId, campaign_id := campaign.id, scene_id := some scene.id
                         entry_type := "encounter", text := t, created_at := s.now }]) := by
  unfold resolveEncounter
  rw [h1]; dsimp only
  rw [h2]; dsimp only
  rw [h3]; dsimp only
  refine ⟨if p.outcome = "victory" then pyOrStr enc.objective_victory fallbackVictory
          else if p.outcome = "draw" then pyOrStr enc.objective_draw fallbackDraw
          else if p.outcome = "defeat" then pyOrStr enc.objective_defeat fallbackDefeat
          else pyOrStr enc.objective_retreat fallbackRetreat,
         ?_, ?_, ?_, ?_, ?_, ?_, ?_, ?_, ?_, ?_, ?_, ?_⟩
  · intro hg; rw [hg]
  · intro hg; rw [hg]; simp
  · intro g hg hne; rw [hg]; simp [hne]
  · intro ho v hv hne; rw [ho, hv]; simp [pyOrStr, hne]
  · intro ho hv; rw [ho]
    rcases hv with hv | hv <;> simp [hv, pyOrStr]
  · intro ho v hv hne; rw [ho, hv]; simp [pyOrStr, hne]
  · intro ho hv; rw [ho]
    rcases hv with hv | hv <;> simp [hv, pyOrStr]
  · intro ho v hv hne; rw [ho, hv]; simp [pyOrStr, hne]
  · intro ho hv; rw [ho]
    rcases hv with hv | hv <;> simp [hv, pyOrStr]
  · intro ho v hv hne; rw [ho, hv]; simp [pyOrStr, hne]
  · intro ho hv; rw [ho]
    rcases hv with hv | hv <;> simp [hv, pyOrStr]
  · intro t ht
    cases ht
    rfl

/-- C6 witness: encounter 6 of `twoCampaignStore` has non-empty
`objective_victory` text "Победа"; resolving with outcome "victory" and GM
notes "проверка" returns that text with the delimited notes addendum. -/
theorem c6_witness :
    (resolveEncounter twoCampaignStore 6 ⟨"victory", none, some "проверка"⟩).snd
      = .ok ("Победа" ++ gmNotesDelim ++ "проверка") := by
  obtain ⟨base, -, -, h3, h4, -, -, -, -, -, -, -, -⟩ :=
    c6_consequence_text twoCampaignStore 6 ⟨"victory", none, some "проверка"⟩
      ⟨6, 5, some "", some "", some "Победа", some "", some "", some "", "pending", none⟩
      ⟨5, 1, none, "Бой", "", "combat", "active"⟩ ⟨1, "A", ""⟩ rfl rfl rfl
  have hb : base = "Победа" := h4 rfl "Победа" rfl (by decide)
  have := h3 "проверка" rfl (by decide)
  rw [hb] at this
  exact this

/-- C7: resolving an already-resolved encounter succeeds again: status stays
"resolved", the outcome is overwritten with the supplied one, the defeated-NPC
status mutation is re-applied, and a fresh log entry is appended (no
de-duplication). -/
theorem c7_reresolution (s : Store) (encId : Nat) (p : EncounterResolve)
    (enc : Encounter) (scene : Scene) (campaign : Campaign)
    (h1 : s.encounters.find? (fun e => e.id = encId) = some enc)
    (hres : enc.status = "resolved")
    (h2 : s.scenes.find? (fun sc => sc.id = enc.scene_id) = some scene)
    (h3 : s.campaigns.find? (fun c => c.id = scene.campaign_id) = some campaign) :
    (resolveEncounter s encId p).snd.isOk = true ∧
    (resolveEncounter s encId p).fst.encounters.find? (fun e => e.id = encId)
      = some { enc with status := "resolved", outcome := some p.outcome } ∧
    (resolveEncounter s encId p).fst.npcs
      = s.npcs.map (fun n =>
          if n.id ∈ p.defeated_npc_ids.getD [] then { n with status := "dead" } else n) ∧
    (resolveEncounter s encId p).fst.logs.length = s.logs.length + 1 := by
  have hid : enc.id = encId := by
    have := List.find?_some h1
    simpa using this
  unfold resolveEncounter
  rw [h1]; dsimp only
  rw [h2]; dsimp only
  rw [h3]; dsimp only
  refine ⟨rfl, ?_, ?_, by simp⟩
  · rw [List.find?_map]
    have hcomp : ((fun e : Encounter => decide (e.id = encId)) ∘
        (fun e => if e.id = encId then { e with status := "resolved", outcome := some p.outcome } else e))
        = fun e : Encounter => decide (e.id = encId) := by
      funext e
      by_cases he : e.id = encId <;> simp [he]
    rw [hcomp, h1]
    simp [hid]
  · by_cases hids : p.defeated_npc_ids.getD [] = []
    · simp [hids]
    · simp [hids]

/-- C7 witness: `twoCampaignStore` with encounter 6 already resolved;
resolving again with outcome "draw" succeeds, overwrites the outcome,
re-marks NPC 3, and appends another log entry. -/
theorem c7_witness :
    (resolveEncounter
        { twoCampaignStore with
            encounters := [⟨6, 5, some "", some "", some "Победа", some "", some "", some "",
                            "resolved", some "victory"⟩] }
        6 ⟨"draw", some [3], none⟩).snd.isOk = true ∧
    (resolveEncounter
        { twoCampaignStore with
            encounters := [⟨6, 5, some "", some "", some "Победа", some "", some "", some "",
                            "resolved", some "victory"⟩] }
        6 ⟨"draw", some [3], none⟩).fst.encounters.find? (fun e => e.id = 6)
      = some ⟨6, 5, some "", some "", some "Победа", some "", some "", some "",
              "resolved", some "draw"⟩ ∧
    (resolveEncounter
        { twoCampaignStore with
            encounters := [⟨6, 5, some "", some "", some "Победа", some "", some "", some "",
                            "resolved", some "victory"⟩] }
        6 ⟨"draw", some [3], none⟩).fst.npcs
      = ({ twoCampaignStore with
            encounters := [⟨6, 5, some "", some "", some "Победа", some "", some "", some "",
                            "resolved", some "victory"⟩] } : Store).npcs.map (fun n =>
          if n.id ∈ (⟨"draw", some [3], none⟩ : EncounterResolve).defeated_npc_ids.getD []
          then { n with status := "dead" } else n) ∧
    (resolveEncounter
        { twoCampaignStore with
            encounters := [⟨6, 5, some "", some "", some "Победа", some "", some "", some "",
                            "resolved", some "victory"⟩] }
        6 ⟨"draw", some [3], none⟩).fst.logs.length
      = ({ twoCampaignStore with
            encounters := [⟨6, 5, some "", some "", some "Победа", some "", some "", some "",
                            "resolved", some "victory"⟩] } : Store).logs.length + 1 :=
  c7_reresolution _ 6 ⟨"draw", some [3], none⟩
    ⟨6, 5, some "", some "", some "Победа", some "", some "", some "", "resolved", some "victory"⟩
    ⟨5, 1, none, "Бой", "", "combat", "active"⟩ ⟨1, "A", ""⟩ rfl rfl rfl rfl

/-- C5: with the campaign's state present and the choice known and owned by
the campaign, advancing fails with `ChoiceNotAvailableError` exactly when the
choice's origin scene is not the current scene; on success the pointer moves
to the target scene when the choice has one and stays put for a dead end, and
exactly one "choice" log entry recording the label is appended. -/
theorem c5_advance_campaign (s : Store) (cid chid : Nat)
    (st : CampaignStateRec) (ch : SceneChoice) (origin : Scene)
    (h1 : s.states.find? (fun x => x.campaign_id = cid) = some st)
    (h2 : s.choices.find? (fun x => x.id = chid) = some ch)
    (h3 : s.scenes.find? (fun x => x.id = ch.scene_id) = some origin)
    (h4 : origin.campaign_id = cid) :
    (st.current_scene_id ≠ some origin.id →
      advanceCampaign s cid chid = (s, .error .choiceNotAvailable)) ∧
    (st.current_scene_id = some origin.id →
      ∃ st', (advanceCampaign s cid chid).snd = .ok st' ∧
        (∀ t, ch.to_scene_id = some t → st'.current_scene_id = some t) ∧
        (ch.to_scene_id = none → st'.current_scene_id = st.current_scene_id) ∧
        (advanceCampaign s cid chid).fst.logs
          = s.logs ++ [{ id := s.nextId, campaign_id := cid, scene_id := some origin.id
                         entry_type := "choice", text := ch.label, created_at := s.now }]) := by
  unfold advanceCampaign
  rw [h1]; dsimp only
  rw [h2]; dsimp only
  rw [h3]; dsimp only
  rw [if_neg (by simp [h4])]
  constructor
  · intro hne
    rw [if_pos hne]
  · intro hcur
    rw [if_neg (by simp [hcur])]
    refine ⟨_, rfl, ?_, ?_, rfl⟩
    · intro t ht; rw [ht]
    · intro ht; rw [ht]

/-- C5 witness: advancing campaign 1 via choice 20 from the current scene
succeeds, and the instantiated theorem yields the pointer move and the log
append. -/
theorem c5_witness :
    ∃ st', (advanceCampaign navStore 1 20).snd = .ok st' ∧
      (∀ t, (⟨20, 10, "Идти дальше", some 11⟩ : SceneChoice).to_scene_id = some t →
        st'.current_scene_id = some t) ∧
      ((⟨20, 10, "Идти дальше", some 11⟩ : SceneChoice).to_scene_id = none →
        st'.current_scene_id = (⟨30, 1, some 10⟩ : CampaignStateRec).current_scene_id) ∧
      (advanceCampaign navStore 1 20).fst.logs
        = navStore.logs ++ [{ id := navStore.nextId, campaign_id := 1, scene_id := some 10
                              entry_type := "choice", text := "Идти дальше"
                              created_at := navStore.now }] :=
  (c5_advance_campaign navStore 1 20 ⟨30, 1, some 10⟩ ⟨20, 10, "Идти дальше", some 11⟩
    ⟨10, 1, none, "Начало", "", "social", "active"⟩ rfl rfl rfl rfl).2 rfl

/-! ## Builder lemmas -/

theorem buildLocations_frame (cid : Nat) : ∀ (ds : List LocationDesc) (s : Store),
    (buildLocations cid s ds).1.campaigns = s.campaigns ∧
    (buildLocations cid s ds).1.npcs = s.npcs ∧
    (buildLocations cid s ds).1.scenes = s.scenes ∧
    (buildLocations cid s ds).1.encounters = s.encounters ∧
    (buildLocations cid s ds).1.states = s.states ∧
    (buildLocations cid s ds).1.logs = s.logs
  | [], _ => ⟨rfl, rfl, rfl, rfl, rfl, rfl⟩
  | d :: rest, s => by
    simp only [buildLocations]
    exact buildLocations_frame cid rest _

theorem buildLocations_len (cid : Nat) : ∀ (ds : List LocationDesc) (s : Store),
    (buildLocations cid s ds).2.length = ds.length
  | [], _ => rfl
  | d :: rest, s => by
    simp only [buildLocations, List.length_cons]
    rw [buildLocations_len cid rest _]

theorem buildScenes_frame (cid : Nat) (locMap : List Nat) :
    ∀ (ds : List SceneDesc) (s : Store),
    (buildScenes cid locMap s ds).campaigns = s.campaigns ∧
    (buildScenes cid locMap s ds).locations = s.locations ∧
    (buildScenes cid locMap s ds).npcs = s.npcs ∧
    (buildScenes cid locMap s ds).states = s.states ∧
    (buildScenes cid locMap s ds).logs = s.logs
  | [], _ => ⟨rfl, rfl, rfl, rfl, rfl⟩
  | d :: rest, s => by
    simp only [buildScenes]
    by_cases hc : coerceSceneType d.scene_type = "combat" <;>
      simp only [hc, if_pos, if_neg, reduceIte] <;>
      exact buildScenes_frame cid locMap rest _

theorem buildNPCs_frame (cid : Nat) : ∀ (ds : List NPCDesc) (s : Store),
    (buildNPCs cid s ds).campaigns = s.campaigns ∧
    (buildNPCs cid s ds).locations = s.locations ∧
    (buildNPCs cid s ds).scenes = s.scenes ∧
    (buildNPCs cid s ds).encounters = s.encounters ∧
    (buildNPCs cid s ds).states = s.states ∧
    (buildNPCs cid s ds).logs = s.logs
  | [], _ => ⟨rfl, rfl, rfl, rfl, rfl, rfl⟩
  | d :: rest, s => by
    simp only [buildNPCs]
    exact buildNPCs_frame cid rest _

theorem buildScenes_locIds (cid : Nat) (locMap : List Nat) :
    ∀ (ds : List SceneDesc) (s : Store),
    (buildScenes cid locMap s ds).scenes.map (fun sc => sc.location_id)
      = s.scenes.map (fun sc => sc.location_id)
        ++ ds.map (fun sd => resolveLocIdx locMap sd.location_index)
  | [], _ => by simp [buildScenes]
  | d :: rest, s => by
    simp only [buildScenes, List.map_cons]
    by_cases hc : coerceSceneType d.scene_type = "combat" <;>
      simp only [hc, if_pos, if_neg, reduceIte] <;>
      rw [buildScenes_locIds cid locMap rest _] <;>
      simp

/-- C1 counterexample: on `nullLocationsData` the build fails after campaign
creation (the handler commits the Campaign at line 493 before iterating
locations), yet the visible store holds that Campaign with no locations,
scenes, NPCs or log entry — a partial write survives the failure, so the
build is not atomic as claimed. -/
theorem c1_two_commit_counterexample :
    (autogenerateAdventure emptyStore somePayload nullLocationsData).snd.isOk = false ∧
    (autogenerateAdventure emptyStore somePayload nullLocationsData).fst.campaigns
      = [⟨1, "Кампания К", ""⟩] ∧
    (autogenerateAdventure emptyStore somePayload nullLocationsData).fst.scenes = [] ∧
    (autogenerateAdventure emptyStore somePayload nullLocationsData).fst.locations = [] ∧
    (autogenerateAdventure emptyStore somePayload nullLocationsData).fst.npcs = [] ∧
    (autogenerateAdventure emptyStore somePayload nullLocationsData).fst.logs = [] :=
  ⟨rfl, rfl, rfl, rfl, rfl, rfl⟩

/-- C1 amended: the build commits in two units — the Campaign row alone
first, then everything else together.  Hence on any failure the visible store
is either untouched or extended by exactly one Campaign row (and its fresh
id), with no locations, scenes, encounters, NPCs, states or log entries
added. -/
theorem c1_amended_failure_shape (s : Store) (p : AutoAdventurePayload) (d : AdventureData)
    (h : (autogenerateAdventure s p d).snd.isOk = false) :
    (autogenerateAdventure s p d).fst = s ∨
    ∃ c : Campaign, (autogenerateAdventure s p d).fst
      = { s with campaigns := s.campaigns ++ [c], nextId := s.nextId + 1 } := by
  unfold autogenerateAdventure at h ⊢
  cases hc : d.campaign with
  | none => exact .inl rfl
  | some cd =>
    rw [hc] at h
    dsimp only at h ⊢
    by_cases hl : d.locations.isNull
    · rw [if_pos hl]
      exact .inr ⟨_, rfl⟩
    · rw [if_neg hl] at h ⊢
      by_cases hsc : d.scenes.isNull
      · rw [if_pos hsc]
        exact .inr ⟨_, rfl⟩
      · rw [if_neg hsc] at h ⊢
        by_cases hn : d.npcs.isNull
        · rw [if_pos hn]
          exact .inr ⟨_, rfl⟩
        · rw [if_neg hn] at h
          exact Bool.noConfusion h

/-- C4: the builder never creates a CampaignState — the `campaign_state`
table is untouched by every build, successful or not, although `models.py`
declares it and the spec requires the build to seed it. -/
theorem c4_no_campaign_state (s : Store) (p : AutoAdventurePayload) (d : AdventureData) :
    (autogenerateAdventure s p d).fst.states = s.states := by
  unfold autogenerateAdventure
  cases hc : d.campaign with
  | none => rfl
  | some cd =>
    dsimp only
    by_cases hl : d.locations.isNull
    · rw [if_pos hl]
    · rw [if_neg hl]
      by_cases hs : d.scenes.isNull
      · rw [if_pos hs]
      · rw [if_neg hs]
        by_cases hn : d.npcs.isNull
        · rw [if_pos hn]
        · rw [if_neg hn]
          dsimp only
          rw [(buildNPCs_frame _ _ _).2.2.2.2.1,
              (buildScenes_frame _ _ _ _).2.2.2.1,
              (buildLocations_frame _ _ _).2.2.2.2.1]

/-- C1 amended witness: the failing build on `nullLocationsData` lands in the
campaign-only shape. -/
theorem c1_amended_witness :
    (autogenerateAdventure emptyStore somePayload nullLocationsData).fst = emptyStore ∨
    ∃ c : Campaign, (autogenerateAdventure emptyStore somePayload nullLocationsData).fst
      = { emptyStore with campaigns := emptyStore.campaigns ++ [c]
                          nextId := emptyStore.nextId + 1 } :=
  c1_amended_failure_shape emptyStore somePayload nullLocationsData rfl

/-- C3 counterexample: the scene declaring out-of-range location index 5 is
created referencing location 2 — the first (and only) created location — not
with an absent location as the claim states; `autogenerate_adventure` coerces
a bad index to 0 and only yields `None` when no locations exist at all. -/
theorem c3_index_counterexample :
    (autogenerateAdventure emptyStore somePayload badIndexData).snd.isOk = true ∧
    (autogenerateAdventure emptyStore somePayload badIndexData).fst.locations.map
        (fun l => l.id) = [2] ∧
    (autogenerateAdventure emptyStore somePayload badIndexData).fst.scenes.map
        (fun sc => sc.location_id) = [some 2] :=
  ⟨rfl, rfl, rfl⟩

/-- C3 amended: the build never fails because of a location index (success
depends only on the campaign object being present and no list field being
JSON null); an absent, non-integer or out-of-range index degrades to index 0,
so the scene references the first created location, and only when no
locations were created does the scene get no location reference. -/
theorem c3_amended_index_fallback (s : Store) (p : AutoAdventurePayload) (d : AdventureData) :
    ((autogenerateAdventure s p d).snd.isOk
      = (d.campaign.isSome && !d.locations.isNull && !d.scenes.isNull && !d.npcs.isNull)) ∧
    (∀ (locMap : List Nat) (raw : Option JIdx),
      (∀ n, raw = some (.int n) → n < 0 ∨ (locMap.length : Int) ≤ n) →
      resolveLocIdx locMap raw = locMap.head?) ∧
    ((autogenerateAdventure s p d).snd.isOk = true →
      ∃ locMap : List Nat, locMap.length = (jGetList d.locations).length ∧
        (autogenerateAdventure s p d).fst.scenes.map (fun sc => sc.location_id)
          = s.scenes.map (fun sc => sc.location_id)
            ++ (jGetList d.scenes).map (fun sd => resolveLocIdx locMap sd.location_index)) := by
  refine ⟨?_, ?_, ?_⟩
  · obtain ⟨dc, dl, dsc, dn⟩ := d
    cases dc <;> cases dl <;> cases dsc <;> cases dn <;> rfl
  · intro locMap raw hbad
    cases raw with
    | none => cases locMap <;> simp [resolveLocIdx]
    | some ji =>
      cases ji with
      | other => cases locMap <;> simp [resolveLocIdx]
      | int n =>
        have hn := hbad n rfl
        cases locMap with
        | nil => rfl
        | cons m0 t =>
          simp only [resolveLocIdx, Option.getD]
          rw [if_neg (by omega)]
          simp
  · intro h
    unfold autogenerateAdventure at h ⊢
    cases hc : d.campaign with
    | none => rw [hc] at h; exact Bool.noConfusion h
    | some cd =>
      rw [hc] at h
      dsimp only at h ⊢
      by_cases hl : d.locations.isNull
      · rw [if_pos hl] at h; exact Bool.noConfusion h
      · rw [if_neg hl] at h ⊢
        by_cases hsc : d.scenes.isNull
        · rw [if_pos hsc] at h; exact Bool.noConfusion h
        · rw [if_neg hsc] at h ⊢
          by_cases hn : d.npcs.isNull
          · rw [if_pos hn] at h; exact Bool.noConfusion h
          · rw [if_neg hn]
            dsimp only
            refine ⟨(buildLocations s.nextId
                { s with
                  campaigns := s.campaigns ++
                    [⟨s.nextId, pyOrStr cd.name "Безымянная кампания", cd.description.getD ""⟩]
                  nextId := s.nextId + 1 }
                (jGetList d.locations)).2, buildLocations_len _ _ _, ?_⟩
            rw [(buildNPCs_frame _ _ _).2.2.1, buildScenes_locIds,
                (buildLocations_frame _ _ _).2.2.1]

/-- C3 amended witness: instantiating the index-fallback theorem on the
out-of-range description `badIndexData`. -/
theorem c3_amended_witness :
    ∃ locMap : List Nat, locMap.length = (jGetList badIndexData.locations).length ∧
      (autogenerateAdventure emptyStore somePayload badIndexData).fst.scenes.map
          (fun sc => sc.location_id)
        = emptyStore.scenes.map (fun sc => sc.location_id)
          ++ (jGetList badIndexData.scenes).map
              (fun sd => resolveLocIdx locMap sd.location_index) :=
  (c3_amended_index_fallback emptyStore somePayload badIndexData).2.2 rfl

theorem encScenesCombat_of_eq (s s' : Store) (henc : s'.encounters = s.encounters)
    (hsc : s'.scenes = s.scenes) (h : EncScenesCombat s) : EncScenesCombat s' := by
  rw [EncScenesCombat, henc, hsc]
  exact h

theorem buildScenes_combat_inv (cid : Nat) (locMap : List Nat) :
    ∀ (ds : List SceneDesc) (s : Store),
    EncScenesCombat s → EncScenesCombat (buildScenes cid locMap s ds)
  | [], _, h => h
  | d :: rest, s, h => by
    simp only [buildScenes]
    by_cases hcmb : coerceSceneType d.scene_type = "combat"
    · simp only [hcmb, reduceIte]
      refine buildScenes_combat_inv cid locMap rest _ ?_
      intro e he
      rcases List.mem_append.1 he with he | he
      · obtain ⟨sc, hmem, hid, hty⟩ := h e he
        exact ⟨sc, List.mem_append_left _ hmem, hid, hty⟩
      · have heq : e = _ := List.mem_singleton.1 he
        subst heq
        exact ⟨_, List.mem_append_right _ (List.mem_singleton.2 rfl), rfl, rfl⟩
    · simp only [hcmb, reduceIte]
      refine buildScenes_combat_inv cid locMap rest _ ?_
      intro e he
      obtain ⟨sc, hmem, hid, hty⟩ := h e he
      exact ⟨sc, List.mem_append_left _ hmem, hid, hty⟩

/-- C8: encounters only attach to combat scenes.  (i) `create_encounter` on a
non-combat scene fails with the 400 error and writes nothing; (ii) it
preserves the combat-scene invariant; (iii) `generate_encounter_for_scene` on
a non-combat scene fails with the 400 error and writes nothing; (iv) it
preserves the invariant; (v) every build preserves the invariant (it creates
an Encounter only alongside a scene stored with kind "combat"). -/
theorem c8_encounters_combat_scenes :
    (∀ (s : Store) (req : EncounterCreate) (scene : Scene),
      s.scenes.find? (fun sc => sc.id = req.scene_id) = some scene →
      scene.scene_type ≠ "combat" →
      createEncounter s req = (s, .error .combatOnly)) ∧
    (∀ (s : Store) (req : EncounterCreate),
      EncScenesCombat s → EncScenesCombat (createEncounter s req).fst) ∧
    (∀ (s : Store) (sceneId : Nat) (g : Except Unit EncGenData) (scene : Scene),
      s.scenes.find? (fun sc => sc.id = sceneId) = some scene →
      scene.scene_type ≠ "combat" →
      generateEncounterForScene s sceneId g = (s, .error .combatOnly)) ∧
    (∀ (s : Store) (sceneId : Nat) (g : Except Unit EncGenData),
      EncScenesCombat s → EncScenesCombat (generateEncounterForScene s sceneId g).fst) ∧
    (∀ (s : Store) (p : AutoAdventurePayload) (d : AdventureData),
      EncScenesCombat s → EncScenesCombat (autogenerateAdventure s p d).fst) := by
  refine ⟨?_, ?_, ?_, ?_, ?_⟩
  · intro s req scene hf hne
    unfold createEncounter
    rw [hf]
    dsimp only
    rw [if_pos hne]
  · intro s req h
    unfold createEncounter
    cases hf : s.scenes.find? (fun sc => sc.id = req.scene_id) with
    | none => exact h
    | some scene =>
      dsimp only
      by_cases hty : scene.scene_type = "combat"
      · rw [if_neg (by simp [hty])]
        intro e he
        rcases List.mem_append.1 he with he | he
        · obtain ⟨sc, hmem, hid, hty'⟩ := h e he
          exact ⟨sc, hmem, hid, hty'⟩
        · have heq : e = _ := List.mem_singleton.1 he
          subst heq
          refine ⟨scene, List.mem_of_find?_eq_some hf, ?_, hty⟩
          simpa using List.find?_some hf
      · rw [if_pos hty]
        exact h
  · intro s sceneId g scene hf hne
    unfold generateEncounterForScene
    rw [hf]
    dsimp only
    rw [if_pos hne]
  · intro s sceneId g h
    unfold generateEncounterForScene
    cases hf : s.scenes.find? (fun sc => sc.id = sceneId) with
    | none => exact h
    | some scene =>
      dsimp only
      by_cases hty : scene.scene_type = "combat"
      · rw [if_neg (by simp [hty])]
        cases hcf : s.campaigns.find? (fun c => c.id = scene.campaign_id) with
        | none => exact h
        | some c =>
          dsimp only
          cases g with
          | error u => exact h
          | ok data =>
            dsimp only
            by_cases hHas : (s.encounters.find? (fun e => e.scene_id = scene.id)).isSome = true
            · rw [if_pos hHas]
              intro e he
              obtain ⟨e0, he0, rfl⟩ := List.mem_map.1 he
              obtain ⟨sc, hmem, hid, hty'⟩ := h e0 he0
              have hsid : (if e0.scene_id = scene.id then
                  { e0 with layout_scheme := some (pyOrStr data.layout_scheme "Простая локация без подробного описания.")
                            npc_summary := some (pyOrStr data.npc_summary "Несколько врагов Императора.")
                            objective_victory := some (pyOrStr data.objective_victory "Вы одержали победу и можете двигаться дальше.")
                            objective_draw := some (pyOrStr data.objective_draw "Ничья. Ситуация остаётся напряжённой.")
                            objective_defeat := some (pyOrStr data.objective_defeat "Поражение. Аколиты оказываются в тяжёлом положении.")
                            objective_retreat := some (pyOrStr data.objective_retreat "Отступление. Нужно искать обходной путь или перегруппироваться.") }
                else e0).scene_id = e0.scene_id := by
                by_cases hh : e0.scene_id = scene.id <;> simp [hh]
              rw [hsid]
              exact ⟨sc, hmem, hid, hty'⟩
            · rw [if_neg hHas]
              intro e he
              rcases List.mem_append.1 he with he | he
              · obtain ⟨sc, hmem, hid, hty'⟩ := h e he
                exact ⟨sc, hmem, hid, hty'⟩
              · have heq : e = _ := List.mem_singleton.1 he
                subst heq
                exact ⟨scene, List.mem_of_find?_eq_some hf, rfl, hty⟩
      · rw [if_pos hty]
        exact h
  · intro s p d h
    unfold autogenerateAdventure
    cases hc : d.campaign with
    | none => exact h
    | some cd =>
      dsimp only
      by_cases hl : d.locations.isNull
      · rw [if_pos hl]
        exact h
      · rw [if_neg hl]
        by_cases hsc : d.scenes.isNull
        · rw [if_pos hsc]
          exact h
        · rw [if_neg hsc]
          by_cases hn : d.npcs.isNull
          · rw [if_pos hn]
            exact h
          · rw [if_neg hn]
            dsimp only
            refine encScenesCombat_of_eq _ _
              ((buildNPCs_frame _ _ _).2.2.2.1) ((buildNPCs_frame _ _ _).2.2.1) ?_
            refine buildScenes_combat_inv _ _ _ _ ?_
            refine encScenesCombat_of_eq _ _
              ((buildLocations_frame _ _ _).2.2.2.1) ((buildLocations_frame _ _ _).2.2.1) ?_
            exact h

/-- C8 witness: creating an encounter on the social scene 10 of `navStore`
fails with the combat-only error and leaves the store untouched. -/
theorem c8_witness :
    createEncounter navStore ⟨10, none, none, none, none, none, none⟩
      = (navStore, .error .combatOnly) :=
  c8_encounters_combat_scenes.1 navStore ⟨10, none, none, none, none, none, none⟩
    ⟨10, 1, none, "Начало", "", "social", "active"⟩ rfl (by decide)

theorem tryChunks_eq_none (decode : List Char → Option α) (trimmed : List Char) :
    ∀ e : Nat, (∀ j, 2 ≤ j → j ≤ e → decode (trimmed.take j) = none) →
      tryChunks decode trimmed e = none
  | 0, _ => rfl
  | 1, _ => rfl
  | k + 2, h => by
    simp only [tryChunks, h (k + 2) (by omega) (Nat.le_refl _)]
    exact tryChunks_eq_none decode trimmed (k + 1) (fun j hj hj' => h j hj (by omega))

theorem tryChunks_eq_some (decode : List Char → Option α) (trimmed : List Char) :
    ∀ (e k : Nat) (v : α), 2 ≤ k → k ≤ e → decode (trimmed.take k) = some v →
      (∀ j, k < j → j ≤ e → decode (trimmed.take j) = none) →
      tryChunks decode trimmed e = some v
  | 0, k, v, h2, hk, _, _ => absurd (Nat.le_trans h2 hk) (by omega)
  | 1, k, v, h2, hk, _, _ => absurd (Nat.le_trans h2 hk) (by omega)
  | m + 2, k, v, h2, hk, hv, hnone => by
    by_cases hek : k = m + 2
    · subst hek
      simp only [tryChunks, hv]
    · have hd : decode (trimmed.take (m + 2)) = none :=
        hnone (m + 2) (by omega) (Nat.le_refl _)
      simp only [tryChunks, hd]
      exact tryChunks_eq_some decode trimmed (m + 1) k v h2 (by omega) hv
        (fun j hj hj' => hnone j hj (by omega))

/-- C10: once the `response` field string is extracted, `generate_json` is
total over error signalling — it yields either a decoded value or an
`OllamaError`: the stripped-empty string errors; a whole-string decode is
returned as is; with no opening brace the repair errors; otherwise the repair
returns the decoder's value at the longest decodable prefix (of length at
least 2 — the loop `range(len, 1, -1)` stops above 1, and a 1-character
prefix is the lone "\x7b" which never decodes) of the substring starting at
the first opening brace, and errors when no such prefix decodes. -/
theorem c10_generate_json_total (decode : List Char → Option α) (resp : List Char) :
    (pyStrip resp = [] →
      generateJsonFromResponse decode (some resp) = .error .emptyResponseField) ∧
    (∀ v, pyStrip resp ≠ [] → decode (pyStrip resp) = some v →
      generateJsonFromResponse decode (some resp) = .ok v) ∧
    (pyStrip resp ≠ [] → decode (pyStrip resp) = none →
      (pyStrip resp).findIdx? (fun c => c = '\x7b') = none →
      generateJsonFromResponse decode (some resp) = .error .noBraceFound) ∧
    (∀ start : Nat, pyStrip resp ≠ [] → decode (pyStrip resp) = none →
      (pyStrip resp).findIdx? (fun c => c = '\x7b') = some start →
      (∀ j, 2 ≤ j → j ≤ ((pyStrip resp).drop start).length →
        decode (((pyStrip resp).drop start).take j) = none) →
      generateJsonFromResponse decode (some resp) = .error .unableToRepair) ∧
    (∀ (start k : Nat) (v : α), pyStrip resp ≠ [] → decode (pyStrip resp) = none →
      (pyStrip resp).findIdx? (fun c => c = '\x7b') = some start →
      2 ≤ k → k ≤ ((pyStrip resp).drop start).length →
      decode (((pyStrip resp).drop start).take k) = some v →
      (∀ j, k < j → j ≤ ((pyStrip resp).drop start).length →
        decode (((pyStrip resp).drop start).take j) = none) →
      generateJsonFromResponse decode (some resp) = .ok v) := by
  refine ⟨?_, ?_, ?_, ?_, ?_⟩
  · intro h
    unfold generateJsonFromResponse
    dsimp only [Option.getD]
    rw [if_pos h]
  · intro v hne hv
    unfold generateJsonFromResponse
    dsimp only [Option.getD]
    rw [if_neg hne, hv]
  · intro hne hnone hfind
    unfold generateJsonFromResponse tryRepairJson
    dsimp only [Option.getD]
    rw [if_neg hne, hnone, if_neg hne, hfind]
  · intro start hne hnone hfind hall
    unfold generateJsonFromResponse tryRepairJson
    dsimp only [Option.getD]
    rw [if_neg hne, hnone, if_neg hne, hfind]
    dsimp only
    rw [tryChunks_eq_none decode _ _ hall]
  · intro start k v hne hnone hfind h2 hk hv hall
    unfold generateJsonFromResponse tryRepairJson
    dsimp only [Option.getD]
    rw [if_neg hne, hnone, if_neg hne, hfind]
    dsimp only
    rw [tryChunks_eq_some decode _ _ k v h2 hk hv hall]

/-- C10 witness: the reply fails to decode whole, and the repair returns the
value of the longest decodable prefix "\x7b\x7d" of the substring starting at
the first opening brace (position 2). -/
theorem c10_witness :
    generateJsonFromResponse toyDecode (some toyResponse) = .ok 42 := by
  refine (c10_generate_json_total toyDecode toyResponse).2.2.2.2 2 2 42
    (by decide) rfl rfl (by decide) (by decide) rfl ?_
  intro j h1 h2
  have hlen : ((pyStrip toyResponse).drop 2).length = 4 := rfl
  rw [hlen] at h2
  interval_cases j <;> rfl

end DH
